import Mathlib

/-!
Verification of the libassuan system-hooks layer (src/system.c).

The development shallowly embeds the dispatch functions of system.c:
each wrapper checks the hook-table version of the context and either
calls the installed hook slot or the built-in default implementation,
optionally bracketing the default call with the pre-syscall and
post-syscall notifications.  Dispatch functions are modelled as pure
functions returning the ordered trace of observable events (bracket
notifications, hook invocations, default-implementation invocations)
together with the returned value.  TRACE logging macros of the source
expand to logging only and are elided from the model; the DEBUG_SYSIO
compile flag is 0 in the source, so the non-debug branches are the
compiled ones and are the ones embedded here.

The memory helpers `_assuan_calloc` and `_assuan_free` are embedded
with size_t arithmetic made explicit (modulo 2 ^ w for a platform word
width w) and with the malloc hook of the context as an explicit
argument; their results carry the list of underlying allocator
invocations so that claims about the allocator never being reached are
statable.
-/

/-- Operation tags, one per slot of the assuan system hook table. -/
inductive SysOp where
  | usleep
  | pipe
  | close
  | read
  | write
  | sendmsg
  | recvmsg
  | spawn
  | waitpid
  | socketpair
  | socket
  | connect
deriving DecidableEq, Repr

/-- Observable events of one dispatch-function call: the pre-syscall
and post-syscall notifications, an invocation of an installed hook
slot (carrying the slot value, the operation tag, and the argument
list), and an invocation of the built-in default implementation. -/
inductive SysEvent (H : Type) where
  | preSyscall : SysEvent H
  | postSyscall : SysEvent H
  | hookCall : H → SysOp → List Nat → SysEvent H
  | defaultCall : SysOp → List Nat → SysEvent H
deriving DecidableEq, Repr

/-- The assuan system hook table (struct assuan_system_hooks): a
version tag followed by the twelve operation slots.  Slot values are
opaque function pointers, modelled by an arbitrary type H. -/
structure SystemHooks (H : Type) where
  version : Nat
  usleep : H
  pipe : H
  close : H
  read : H
  write : H
  sendmsg : H
  recvmsg : H
  spawn : H
  waitpid : H
  socketpair : H
  socket : H
  connect : H
deriving DecidableEq, Repr

/-- The part of an assuan context the dispatch functions consult: its
private system hook table (ctx->system). -/
structure Context (H : Type) where
  system : SystemHooks H
deriving DecidableEq, Repr

/-- Return-value semantics of the underlying calls: defaultRes gives
the value returned by the built-in default implementation of an
operation on given arguments, hookRes the value returned by an
installed hook slot.  These stand for the link-time behaviour of the
platform layer, which system.c treats as opaque. -/
structure SysImpls (H : Type) where
  defaultRes : SysOp → List Nat → Int
  hookRes : H → SysOp → List Nat → Int

/-- Modelled from the spec: the current hook-table version constant of
the library (ASSUAN_SYSTEM_HOOKS_VERSION, declared in the public
header, which is not among the sources here).  The spec gates the
socket and connect slots at version 2 and names no later version, so
the current version constant is 2. -/
def ASSUAN_SYSTEM_HOOKS_VERSION : Nat := 2

/-- Translated from _assuan_system_hooks_copy in system.c.  defaults
stands for the process-wide default table _assuan_system_hooks;
dstIsDefaultTable models the pointer-identity test
dst == and-sign _assuan_system_hooks; src == none models a NULL src
pointer.  The function returns the value held by dst after the call.
The empty src->version > 2 branch of the source (a FIXME comment only)
copies nothing further. -/
def _assuan_system_hooks_copy {H : Type} (defaults : SystemHooks H)
    (dstIsDefaultTable : Bool) (dst : SystemHooks H)
    (src : Option (SystemHooks H)) : SystemHooks H :=
  match src with
  | none => dst
  | some s =>
      let base := if dstIsDefaultTable then dst else defaults
      let d1 : SystemHooks H := { base with version := ASSUAN_SYSTEM_HOOKS_VERSION }
      let d2 : SystemHooks H :=
        if 1 ≤ s.version then
          { d1 with usleep := s.usleep, pipe := s.pipe, close := s.close,
                    read := s.read, write := s.write, sendmsg := s.sendmsg,
                    recvmsg := s.recvmsg, spawn := s.spawn, waitpid := s.waitpid,
                    socketpair := s.socketpair }
        else d1
      if 2 ≤ s.version then
        { d2 with socket := s.socket, connect := s.connect }
      else d2

/-- The event trace of a version-0 dispatch whose default call is
bracketed by the pre-syscall and post-syscall notifications. -/
def bracketedTrace (H : Type) (op : SysOp) (args : List Nat) : List (SysEvent H) :=
  [SysEvent.preSyscall, SysEvent.defaultCall op args, SysEvent.postSyscall]

/-- Translated from _assuan_usleep in system.c: hook slot when
ctx->system.version is nonzero, otherwise the bracketed default
__assuan_usleep.  Void return, so only the trace is produced. -/
def _assuan_usleep {H : Type} (ctx : Context H) (usec : Nat) : List (SysEvent H) :=
  if ctx.system.version ≠ 0 then
    [SysEvent.hookCall ctx.system.usleep SysOp.usleep [usec]]
  else
    bracketedTrace H SysOp.usleep [usec]

/-- Translated from _assuan_pipe in system.c: hook slot when
ctx->system.version is nonzero, otherwise the default __assuan_pipe
with no bracket.  The source returns err both on the error path and on
the success path (where err is 0). -/
def _assuan_pipe {H : Type} (impls : SysImpls H) (ctx : Context H)
    (inherit_idx : Nat) : List (SysEvent H) × Int :=
  if ctx.system.version ≠ 0 then
    ([SysEvent.hookCall ctx.system.pipe SysOp.pipe [inherit_idx]],
     impls.hookRes ctx.system.pipe SysOp.pipe [inherit_idx])
  else
    ([SysEvent.defaultCall SysOp.pipe [inherit_idx]],
     impls.defaultRes SysOp.pipe [inherit_idx])

/-- Translated from _assuan_close in system.c: hook slot when
ctx->system.version is nonzero, otherwise the bracketed default
__assuan_close. -/
def _assuan_close {H : Type} (impls : SysImpls H) (ctx : Context H)
    (fd : Nat) : List (SysEvent H) × Int :=
  if ctx.system.version ≠ 0 then
    ([SysEvent.hookCall ctx.system.close SysOp.close [fd]],
     impls.hookRes ctx.system.close SysOp.close [fd])
  else
    (bracketedTrace H SysOp.close [fd],
     impls.defaultRes SysOp.close [fd])

/-- Translated from _assuan_close_inheritable in system.c, whose body
is the same dispatch as _assuan_close: hook slot when
ctx->system.version is nonzero, otherwise the bracketed default
__assuan_close. -/
def _assuan_close_inheritable {H : Type} (impls : SysImpls H) (ctx : Context H)
    (fd : Nat) : List (SysEvent H) × Int :=
  if ctx.system.version ≠ 0 then
    ([SysEvent.hookCall ctx.system.close SysOp.close [fd]],
     impls.hookRes ctx.system.close SysOp.close [fd])
  else
    (bracketedTrace H SysOp.close [fd],
     impls.defaultRes SysOp.close [fd])

/-- Translated from _assuan_read in system.c (DEBUG_SYSIO is 0, so the
second branch of the preprocessor conditional is compiled): hook slot
when ctx->system.version is nonzero, otherwise the bracketed default
__assuan_read.  The buffer pointer is elided; fd and size are kept. -/
def _assuan_read {H : Type} (impls : SysImpls H) (ctx : Context H)
    (fd size : Nat) : List (SysEvent H) × Int :=
  if ctx.system.version ≠ 0 then
    ([SysEvent.hookCall ctx.system.read SysOp.read [fd, size]],
     impls.hookRes ctx.system.read SysOp.read [fd, size])
  else
    (bracketedTrace H SysOp.read [fd, size],
     impls.defaultRes SysOp.read [fd, size])

/-- Translated from _assuan_write in system.c (non-debug branch): hook
slot when ctx->system.version is nonzero, otherwise the bracketed
default __assuan_write. -/
def _assuan_write {H : Type} (impls : SysImpls H) (ctx : Context H)
    (fd size : Nat) : List (SysEvent H) × Int :=
  if ctx.system.version ≠ 0 then
    ([SysEvent.hookCall ctx.system.write SysOp.write [fd, size]],
     impls.hookRes ctx.system.write SysOp.write [fd, size])
  else
    (bracketedTrace H SysOp.write [fd, size],
     impls.defaultRes SysOp.write [fd, size])

/-- Translated from _assuan_sendmsg in system.c (non-debug branch):
hook slot when ctx->system.version is nonzero, otherwise the bracketed
default __assuan_sendmsg.  The msghdr pointer is elided; fd and flags
are kept. -/
def _assuan_sendmsg {H : Type} (impls : SysImpls H) (ctx : Context H)
    (fd flags : Nat) : List (SysEvent H) × Int :=
  if ctx.system.version ≠ 0 then
    ([SysEvent.hookCall ctx.system.sendmsg SysOp.sendmsg [fd, flags]],
     impls.hookRes ctx.system.sendmsg SysOp.sendmsg [fd, flags])
  else
    (bracketedTrace H SysOp.sendmsg [fd, flags],
     impls.defaultRes SysOp.sendmsg [fd, flags])

/-- Translated from _assuan_recvmsg in system.c (non-debug branch):
hook slot when ctx->system.version is nonzero, otherwise the bracketed
default __assuan_recvmsg. -/
def _assuan_recvmsg {H : Type} (impls : SysImpls H) (ctx : Context H)
    (fd flags : Nat) : List (SysEvent H) × Int :=
  if ctx.system.version ≠ 0 then
    ([SysEvent.hookCall ctx.system.recvmsg SysOp.recvmsg [fd, flags]],
     impls.hookRes ctx.system.recvmsg SysOp.recvmsg [fd, flags])
  else
    (bracketedTrace H SysOp.recvmsg [fd, flags],
     impls.defaultRes SysOp.recvmsg [fd, flags])

/-- Translated from _assuan_spawn in system.c: hook slot when
ctx->system.version is nonzero, otherwise the default __assuan_spawn
with no bracket.  The name, argv, fd list and atfork pointers are
elided (they only feed TRACE logging and are forwarded unchanged);
fd_in, fd_out and flags are kept. -/
def _assuan_spawn {H : Type} (impls : SysImpls H) (ctx : Context H)
    (fd_in fd_out flags : Nat) : List (SysEvent H) × Int :=
  if ctx.system.version ≠ 0 then
    ([SysEvent.hookCall ctx.system.spawn SysOp.spawn [fd_in, fd_out, flags]],
     impls.hookRes ctx.system.spawn SysOp.spawn [fd_in, fd_out, flags])
  else
    ([SysEvent.defaultCall SysOp.spawn [fd_in, fd_out, flags]],
     impls.defaultRes SysOp.spawn [fd_in, fd_out, flags])

/-- Translated from _assuan_waitpid in system.c (non-debug branch):
hook slot when ctx->system.version is nonzero, otherwise the bracketed
default __assuan_waitpid.  The status out-pointer is elided. -/
def _assuan_waitpid {H : Type} (impls : SysImpls H) (ctx : Context H)
    (pid action options : Nat) : List (SysEvent H) × Int :=
  if ctx.system.version ≠ 0 then
    ([SysEvent.hookCall ctx.system.waitpid SysOp.waitpid [pid, action, options]],
     impls.hookRes ctx.system.waitpid SysOp.waitpid [pid, action, options])
  else
    (bracketedTrace H SysOp.waitpid [pid, action, options],
     impls.defaultRes SysOp.waitpid [pid, action, options])

/-- Translated from _assuan_socketpair in system.c: hook slot when
ctx->system.version is nonzero, otherwise the default
__assuan_socketpair with no bracket.  The filedes out-array is
elided. -/
def _assuan_socketpair {H : Type} (impls : SysImpls H) (ctx : Context H)
    (ns style protocol : Nat) : List (SysEvent H) × Int :=
  if ctx.system.version ≠ 0 then
    ([SysEvent.hookCall ctx.system.socketpair SysOp.socketpair [ns, style, protocol]],
     impls.hookRes ctx.system.socketpair SysOp.socketpair [ns, style, protocol])
  else
    ([SysEvent.defaultCall SysOp.socketpair [ns, style, protocol]],
     impls.defaultRes SysOp.socketpair [ns, style, protocol])

/-- Translated from _assuan_socket in system.c: hook slot when
ctx->system.version is nonzero, otherwise the default __assuan_socket
with no bracket. -/
def _assuan_socket {H : Type} (impls : SysImpls H) (ctx : Context H)
    (ns style protocol : Nat) : List (SysEvent H) × Int :=
  if ctx.system.version ≠ 0 then
    ([SysEvent.hookCall ctx.system.socket SysOp.socket [ns, style, protocol]],
     impls.hookRes ctx.system.socket SysOp.socket [ns, style, protocol])
  else
    ([SysEvent.defaultCall SysOp.socket [ns, style, protocol]],
     impls.defaultRes SysOp.socket [ns, style, protocol])

/-- Translated from _assuan_connect in system.c: hook slot when
ctx->system.version is nonzero, otherwise the bracketed default
__assuan_connect.  The sockaddr pointer is elided; sock and length are
kept. -/
def _assuan_connect {H : Type} (impls : SysImpls H) (ctx : Context H)
    (sock length : Nat) : List (SysEvent H) × Int :=
  if ctx.system.version ≠ 0 then
    ([SysEvent.hookCall ctx.system.connect SysOp.connect [sock, length]],
     impls.hookRes ctx.system.connect SysOp.connect [sock, length])
  else
    (bracketedTrace H SysOp.connect [sock, length],
     impls.defaultRes SysOp.connect [sock, length])

/-- Translated from _assuan_calloc in system.c.  The size_t
multiplication cnt * elsize is taken modulo 2 ^ w for the platform
word width w; the overflow check of the source divides the wrapped
product back by elsize and compares with cnt.  mallocHook models
ctx->malloc_hooks.malloc: given a byte count it returns the fresh
region (a list of arbitrary byte values) or none for a NULL return.
The first component of the result is the list of sizes passed to the
malloc hook (empty when the hook was never invoked); the second is the
returned region, zero-filled by the memset of the source, or none for
a NULL return. -/
def _assuan_calloc (w : Nat) (mallocHook : Nat → Option (List Nat))
    (cnt elsize : Nat) : List Nat × Option (List Nat) :=
  let nbytes := (cnt * elsize) % 2 ^ w
  if elsize ≠ 0 ∧ nbytes / elsize ≠ cnt then
    ([], none)
  else
    match mallocHook nbytes with
    | none => ([nbytes], none)
    | some region => ([nbytes], some (region.map fun _ => 0))

/-- The part of an assuan context the memory-release path consults:
its free hook (ctx->malloc_hooks.free), an opaque function pointer. -/
structure MemContext (H : Type) where
  freeHook : H
deriving DecidableEq, Repr

/-- Translated from _assuan_free in system.c: the free hook of the
context is invoked only when ptr is non-NULL (0 models NULL).  The
result is the list of invocations of the free hook of the context,
each recorded as the hook together with the pointer passed to it. -/
def _assuan_free {H : Type} (ctx : MemContext H) (ptr : Nat) : List (H × Nat) :=
  if ptr ≠ 0 then [(ctx.freeHook, ptr)] else []

/-!
Concrete fixtures used by counterexamples and witnesses.  Hook slots
are drawn from Nat, standing for distinct function pointers; slot k of
hooksA is the value k, the process-wide default table defaultsA uses
values above 100.
-/

/-- A concrete hook table with distinct slot values and version 0. -/
def hooksA0 : SystemHooks Nat :=
  ⟨0, 1, 2, 3, 4, 5, 6, 7, 8, 9, 10, 11, 12⟩

/-- A concrete context whose hook-table version is 0. -/
def ctxA0 : Context Nat := ⟨hooksA0⟩

/-- A concrete hook table equal to hooksA0 except for version 1. -/
def hooksA1 : SystemHooks Nat := { hooksA0 with version := 1 }

/-- A concrete context whose hook-table version is 1. -/
def ctxA1 : Context Nat := ⟨hooksA1⟩

/-- A concrete return-value semantics: every underlying call returns 0. -/
def implsA : SysImpls Nat := ⟨fun _ _ => 0, fun _ _ _ => 0⟩

/-- A concrete process-wide default table at the library version, with
slot values above 100. -/
def defaultsA : SystemHooks Nat :=
  ⟨ASSUAN_SYSTEM_HOOKS_VERSION,
   101, 102, 103, 104, 105, 106, 107, 108, 109, 110, 111, 112⟩

/-- A concrete caller table with version 1 and slot values above 200. -/
def srcA1 : SystemHooks Nat :=
  ⟨1, 201, 202, 203, 204, 205, 206, 207, 208, 209, 210, 211, 212⟩

/-- A concrete caller table with version 2 and slot values above 300. -/
def srcA2 : SystemHooks Nat :=
  ⟨2, 301, 302, 303, 304, 305, 306, 307, 308, 309, 310, 311, 312⟩

/-- A concrete caller table with version 5 and slot values above 400. -/
def srcA5 : SystemHooks Nat :=
  ⟨5, 401, 402, 403, 404, 405, 406, 407, 408, 409, 410, 411, 412⟩

/-- A concrete destination table: a stale per-context copy with slot
values above 500, distinct from defaultsA. -/
def dstA : SystemHooks Nat :=
  ⟨2, 501, 502, 503, 504, 505, 506, 507, 508, 509, 510, 511, 512⟩

/-- A concrete malloc hook that always succeeds and returns a region
of the requested length filled with the nonzero byte 7. -/
def mallocA : Nat → Option (List Nat) := fun n => some (List.replicate n 7)

/-- C7: merging with an absent (NULL) source table returns the
destination unchanged, whatever its prior contents and version. -/
theorem C7_merge_null_src_is_noop {H : Type} (defaults dst : SystemHooks H)
    (dstIsDefaultTable : Bool) :
    _assuan_system_hooks_copy defaults dstIsDefaultTable dst none = dst := rfl

/-- C5: after merging any non-NULL source table, also one with version
0, the version field of the destination equals the library version
constant ASSUAN_SYSTEM_HOOKS_VERSION, which is nonzero; in particular
it is never taken from the source. -/
theorem C5_merge_sets_library_version {H : Type} (defaults dst src : SystemHooks H)
    (dstIsDefaultTable : Bool) :
    (_assuan_system_hooks_copy defaults dstIsDefaultTable dst (some src)).version
      = ASSUAN_SYSTEM_HOOKS_VERSION ∧
    (_assuan_system_hooks_copy defaults dstIsDefaultTable dst (some src)).version ≠ 0 := by
  unfold _assuan_system_hooks_copy
  dsimp only
  constructor <;> split <;> split <;> simp [ASSUAN_SYSTEM_HOOKS_VERSION]

/-- C9: releasing a NULL handle is a no-op: the free hook of the
context is never invoked, for every context. -/
theorem C9_free_null_is_noop {H : Type} (ctx : MemContext H) :
    _assuan_free ctx 0 = [] := rfl

/-- C10: closing the inheritable end of a pipe dispatches exactly as
the ordinary close: for every return-value semantics, context and
descriptor the two functions produce the same event trace and the same
result. -/
theorem C10_close_inheritable_equals_close {H : Type} (impls : SysImpls H)
    (ctx : Context H) (fd : Nat) :
    _assuan_close impls ctx fd = _assuan_close_inheritable impls ctx fd := rfl

/-- C2: merging a non-NULL source table of version 1 copies the
usleep, pipe, close, read, write, sendmsg, recvmsg, spawn, waitpid and
socketpair slots from the source while the socket and connect slots
equal those of the process-wide default table; with source version at
least 2 the socket and connect slots are copied from the source as
well.  The hypothesis records that the pointer-identity test is
truthful: when dst is the default table it holds the default values. -/
theorem C2_merge_version_gated_slots {H : Type} (defaults dst src : SystemHooks H)
    (dstIsDefaultTable : Bool)
    (hIdent : dstIsDefaultTable = true → dst = defaults) :
    (src.version = 1 →
      (_assuan_system_hooks_copy defaults dstIsDefaultTable dst (some src)).usleep = src.usleep ∧
      (_assuan_system_hooks_copy defaults dstIsDefaultTable dst (some src)).pipe = src.pipe ∧
      (_assuan_system_hooks_copy defaults dstIsDefaultTable dst (some src)).close = src.close ∧
      (_assuan_system_hooks_copy defaults dstIsDefaultTable dst (some src)).read = src.read ∧
      (_assuan_system_hooks_copy defaults dstIsDefaultTable dst (some src)).write = src.write ∧
      (_assuan_system_hooks_copy defaults dstIsDefaultTable dst (some src)).sendmsg = src.sendmsg ∧
      (_assuan_system_hooks_copy defaults dstIsDefaultTable dst (some src)).recvmsg = src.recvmsg ∧
      (_assuan_system_hooks_copy defaults dstIsDefaultTable dst (some src)).spawn = src.spawn ∧
      (_assuan_system_hooks_copy defaults dstIsDefaultTable dst (some src)).waitpid = src.waitpid ∧
      (_assuan_system_hooks_copy defaults dstIsDefaultTable dst (some src)).socketpair = src.socketpair ∧
      (_assuan_system_hooks_copy defaults dstIsDefaultTable dst (some src)).socket = defaults.socket ∧
      (_assuan_system_hooks_copy defaults dstIsDefaultTable dst (some src)).connect = defaults.connect) ∧
    (2 ≤ src.version →
      (_assuan_system_hooks_copy defaults dstIsDefaultTable dst (some src)).socket = src.socket ∧
      (_assuan_system_hooks_copy defaults dstIsDefaultTable dst (some src)).connect = src.connect) := by
  unfold _assuan_system_hooks_copy
  dsimp only
  constructor
  · intro hv
    have hbase : (if dstIsDefaultTable then dst else defaults) = if dstIsDefaultTable then defaults else defaults := by
      cases dstIsDefaultTable with
      | false => rfl
      | true => simp [hIdent rfl]
    rw [hv]
    norm_num
    rw [hbase]
    cases dstIsDefaultTable <;> simp
  · intro hv
    have h1 : 1 ≤ src.version := le_trans (by norm_num) hv
    simp [h1, hv]

/-- Witness for C2: the version-gated copying evaluated on concrete
tables, once with a version-1 source (socket slot stays at the default
value) and once with a version-2 source (socket slot comes from the
source). -/
theorem C2_merge_version_gated_slots_witness :
    ((_assuan_system_hooks_copy defaultsA false dstA (some srcA1)).usleep = srcA1.usleep ∧
     (_assuan_system_hooks_copy defaultsA false dstA (some srcA1)).pipe = srcA1.pipe ∧
     (_assuan_system_hooks_copy defaultsA false dstA (some srcA1)).close = srcA1.close ∧
     (_assuan_system_hooks_copy defaultsA false dstA (some srcA1)).read = srcA1.read ∧
     (_assuan_system_hooks_copy defaultsA false dstA (some srcA1)).write = srcA1.write ∧
     (_assuan_system_hooks_copy defaultsA false dstA (some srcA1)).sendmsg = srcA1.sendmsg ∧
     (_assuan_system_hooks_copy defaultsA false dstA (some srcA1)).recvmsg = srcA1.recvmsg ∧
     (_assuan_system_hooks_copy defaultsA false dstA (some srcA1)).spawn = srcA1.spawn ∧
     (_assuan_system_hooks_copy defaultsA false dstA (some srcA1)).waitpid = srcA1.waitpid ∧
     (_assuan_system_hooks_copy defaultsA false dstA (some srcA1)).socketpair = srcA1.socketpair ∧
     (_assuan_system_hooks_copy defaultsA false dstA (some srcA1)).socket = defaultsA.socket ∧
     (_assuan_system_hooks_copy defaultsA false dstA (some srcA1)).connect = defaultsA.connect) ∧
    ((_assuan_system_hooks_copy defaultsA false dstA (some srcA2)).socket = srcA2.socket ∧
     (_assuan_system_hooks_copy defaultsA false dstA (some srcA2)).connect = srcA2.connect) :=
  ⟨(C2_merge_version_gated_slots defaultsA dstA srcA1 false (by simp)).1 (by decide),
   (C2_merge_version_gated_slots defaultsA dstA srcA2 false (by simp)).2 (by decide)⟩

/-- C6: merging a non-NULL source table whose version is greater than
2 totally determines the destination with no reference to anything of
the source beyond the known version-gated slots: the result is exactly
the record built from the library version constant and the twelve
known slots of the source, and it coincides with the merge of the same
source clamped to version 2, so the extra version information is
silently ignored and the merge always completes. -/
theorem C6_merge_future_version_ignored {H : Type} (defaults dst src : SystemHooks H)
    (dstIsDefaultTable : Bool) (hv : 2 < src.version) :
    _assuan_system_hooks_copy defaults dstIsDefaultTable dst (some src) =
      ⟨ASSUAN_SYSTEM_HOOKS_VERSION, src.usleep, src.pipe, src.close, src.read,
       src.write, src.sendmsg, src.recvmsg, src.spawn, src.waitpid,
       src.socketpair, src.socket, src.connect⟩ ∧
    _assuan_system_hooks_copy defaults dstIsDefaultTable dst (some src) =
      _assuan_system_hooks_copy defaults dstIsDefaultTable dst
        (some { src with version := 2 }) := by
  have h1 : 1 ≤ src.version := by omega
  have h2 : 2 ≤ src.version := by omega
  unfold _assuan_system_hooks_copy
  simp [h1, h2]

/-- Witness for C6: the merge of a concrete version-5 source table
evaluated on concrete default and destination tables. -/
theorem C6_merge_future_version_ignored_witness :
    _assuan_system_hooks_copy defaultsA false dstA (some srcA5) =
      ⟨ASSUAN_SYSTEM_HOOKS_VERSION, srcA5.usleep, srcA5.pipe, srcA5.close, srcA5.read,
       srcA5.write, srcA5.sendmsg, srcA5.recvmsg, srcA5.spawn, srcA5.waitpid,
       srcA5.socketpair, srcA5.socket, srcA5.connect⟩ ∧
    _assuan_system_hooks_copy defaultsA false dstA (some srcA5) =
      _assuan_system_hooks_copy defaultsA false dstA
        (some { srcA5 with version := 2 }) :=
  C6_merge_future_version_ignored defaultsA dstA srcA5 false (by decide)

/-- C3: whenever the true product cnt * elsize overflows the size_t
range of a platform with word width w (both factors being size_t
values), the zeroing allocation detects the wrap-around, returns NULL
with the overflow errno, and never invokes the malloc hook of the
context. -/
theorem C3_calloc_overflow_no_alloc (w : Nat) (mallocHook : Nat → Option (List Nat))
    (cnt elsize : Nat) (_hcnt : cnt < 2 ^ w) (_helsize : elsize < 2 ^ w)
    (hov : 2 ^ w ≤ cnt * elsize) :
    _assuan_calloc w mallocHook cnt elsize = ([], none) := by
  have hpos : 0 < 2 ^ w := pow_pos (by norm_num) w
  have hez : elsize ≠ 0 := by
    intro h
    rw [h, Nat.mul_zero] at hov
    omega
  have hlt : (cnt * elsize) % 2 ^ w < cnt * elsize :=
    lt_of_lt_of_le (Nat.mod_lt _ hpos) hov
  have hdiv : (cnt * elsize) % 2 ^ w / elsize < cnt :=
    (Nat.div_lt_iff_lt_mul (Nat.pos_of_ne_zero hez)).mpr hlt
  simp only [_assuan_calloc]
  rw [if_pos ⟨hez, Nat.ne_of_lt hdiv⟩]

/-- Witness for C3: with a 4-bit size_t, cnt = 4 and elsize = 4
overflow (the true product 16 exceeds the representable 15), and the
always-succeeding malloc hook is never reached. -/
theorem C3_calloc_overflow_no_alloc_witness :
    _assuan_calloc 4 mallocA 4 4 = ([], none) :=
  C3_calloc_overflow_no_alloc 4 mallocA 4 4 (by decide) (by decide) (by decide)

/-- C8: when the product cnt * elsize does not overflow and the malloc
hook of the context succeeds with a region of the requested length,
the zeroing allocation invokes the hook exactly once with cnt * elsize
and returns the region with all cnt * elsize bytes set to zero. -/
theorem C8_calloc_zero_fills (w : Nat) (mallocHook : Nat → Option (List Nat))
    (cnt elsize : Nat) (region : List Nat)
    (hnov : cnt * elsize < 2 ^ w)
    (halloc : mallocHook (cnt * elsize) = some region)
    (hlen : region.length = cnt * elsize) :
    _assuan_calloc w mallocHook cnt elsize =
      ([cnt * elsize], some (List.replicate (cnt * elsize) 0)) := by
  have hmod : (cnt * elsize) % 2 ^ w = cnt * elsize := Nat.mod_eq_of_lt hnov
  have hcond : ¬ (elsize ≠ 0 ∧ cnt * elsize / elsize ≠ cnt) := by
    rintro ⟨hez, hne⟩
    exact hne (Eq.symm (Nat.eq_div_of_mul_eq_left hez rfl))
  simp only [_assuan_calloc]
  rw [hmod, if_neg hcond, halloc]
  simp [List.map_const', hlen]

/-- Witness for C8: with an 8-bit size_t and the concrete malloc hook
returning a region of 6 bytes with value 7, a 3 by 2 zeroing
allocation invokes the hook once with 6 and returns 6 zero bytes. -/
theorem C8_calloc_zero_fills_witness :
    _assuan_calloc 8 mallocA 3 2 = ([6], some (List.replicate 6 0)) :=
  C8_calloc_zero_fills 8 mallocA 3 2 (List.replicate 6 7) (by decide) rfl (by decide)

/-- Counterexample for C1: on a concrete context whose hook-table
version is 0, the pipe, spawn, socketpair and socket dispatches invoke
the default implementation without the pre-syscall and post-syscall
bracket, refuting the claim that every operation of the set is
bracketed. -/
theorem C1_counterexample :
    ctxA0.system.version = 0 ∧
    (_assuan_pipe implsA ctxA0 1).fst ≠ bracketedTrace Nat SysOp.pipe [1] ∧
    (_assuan_spawn implsA ctxA0 3 4 0).fst ≠ bracketedTrace Nat SysOp.spawn [3, 4, 0] ∧
    (_assuan_socketpair implsA ctxA0 1 2 3).fst ≠ bracketedTrace Nat SysOp.socketpair [1, 2, 3] ∧
    (_assuan_socket implsA ctxA0 1 2 3).fst ≠ bracketedTrace Nat SysOp.socket [1, 2, 3] := by
  refine ⟨rfl, ?_, ?_, ?_, ?_⟩ <;> decide

/-- C1 amended: for every context whose hook-table version is 0, every
operation dispatches to the built-in default implementation; for
usleep, close, read, write, sendmsg, recvmsg, waitpid and connect the
default call is bracketed by a pre-syscall notification immediately
before and a post-syscall notification immediately after,
unconditionally paired on every path; for pipe, spawn, socketpair and
socket the default implementation is invoked without the bracket. -/
theorem C1_version0_default_dispatch {H : Type} (impls : SysImpls H)
    (ctx : Context H) (hv : ctx.system.version = 0) :
    (∀ usec, _assuan_usleep ctx usec = bracketedTrace H SysOp.usleep [usec]) ∧
    (∀ fd, (_assuan_close impls ctx fd).fst = bracketedTrace H SysOp.close [fd]) ∧
    (∀ fd size, (_assuan_read impls ctx fd size).fst = bracketedTrace H SysOp.read [fd, size]) ∧
    (∀ fd size, (_assuan_write impls ctx fd size).fst = bracketedTrace H SysOp.write [fd, size]) ∧
    (∀ fd flags, (_assuan_sendmsg impls ctx fd flags).fst = bracketedTrace H SysOp.sendmsg [fd, flags]) ∧
    (∀ fd flags, (_assuan_recvmsg impls ctx fd flags).fst = bracketedTrace H SysOp.recvmsg [fd, flags]) ∧
    (∀ pid action options, (_assuan_waitpid impls ctx pid action options).fst = bracketedTrace H SysOp.waitpid [pid, action, options]) ∧
    (∀ sock length, (_assuan_connect impls ctx sock length).fst = bracketedTrace H SysOp.connect [sock, length]) ∧
    (∀ inherit_idx, (_assuan_pipe impls ctx inherit_idx).fst = [SysEvent.defaultCall SysOp.pipe [inherit_idx]]) ∧
    (∀ fd_in fd_out flags, (_assuan_spawn impls ctx fd_in fd_out flags).fst = [SysEvent.defaultCall SysOp.spawn [fd_in, fd_out, flags]]) ∧
    (∀ ns style protocol, (_assuan_socketpair impls ctx ns style protocol).fst = [SysEvent.defaultCall SysOp.socketpair [ns, style, protocol]]) ∧
    (∀ ns style protocol, (_assuan_socket impls ctx ns style protocol).fst = [SysEvent.defaultCall SysOp.socket [ns, style, protocol]]) := by
  refine ⟨?_, ?_, ?_, ?_, ?_, ?_, ?_, ?_, ?_, ?_, ?_, ?_⟩ <;>
    intros <;>
    simp [_assuan_usleep, _assuan_close, _assuan_read, _assuan_write,
          _assuan_sendmsg, _assuan_recvmsg, _assuan_waitpid, _assuan_connect,
          _assuan_pipe, _assuan_spawn, _assuan_socketpair, _assuan_socket, hv]

/-- Witness for C1 amended: on the concrete version-0 context, usleep
is bracketed while pipe invokes the default unbracketed. -/
theorem C1_version0_default_dispatch_witness :
    _assuan_usleep ctxA0 5 = bracketedTrace Nat SysOp.usleep [5] ∧
    (_assuan_pipe implsA ctxA0 1).fst = [SysEvent.defaultCall SysOp.pipe [1]] := by
  have h := C1_version0_default_dispatch implsA ctxA0 rfl
  exact ⟨h.1 5, h.2.2.2.2.2.2.2.2.1 1⟩

/-- Counterexample for C4: on a concrete context whose hook-table
version is 1 (so below 2), the socket and connect dispatches invoke
the installed hook slots, not the default implementation, refuting the
claim that the hook slot is used only when the version is at least
2. -/
theorem C4_counterexample :
    ctxA1.system.version < 2 ∧
    (_assuan_socket implsA ctxA1 1 2 3).fst
      = [SysEvent.hookCall ctxA1.system.socket SysOp.socket [1, 2, 3]] ∧
    (_assuan_socket implsA ctxA1 1 2 3).fst
      ≠ [SysEvent.defaultCall SysOp.socket [1, 2, 3]] ∧
    (_assuan_connect implsA ctxA1 7 16).fst
      = [SysEvent.hookCall ctxA1.system.connect SysOp.connect [7, 16]] ∧
    (_assuan_connect implsA ctxA1 7 16).fst
      ≠ bracketedTrace Nat SysOp.connect [7, 16] := by
  refine ⟨by decide, rfl, by decide, rfl, by decide⟩

/-- C4 amended: createSocket and connectSocket dispatch to the
installed hook slot if and only if the hook-table version of the
context is nonzero; only when the version is 0 do they invoke the
default implementation (unbracketed for socket, bracketed for
connect). -/
theorem C4_socket_connect_dispatch {H : Type} (impls : SysImpls H)
    (ctx : Context H) (ns style protocol sock length : Nat) :
    (ctx.system.version ≠ 0 →
      (_assuan_socket impls ctx ns style protocol).fst
        = [SysEvent.hookCall ctx.system.socket SysOp.socket [ns, style, protocol]] ∧
      (_assuan_connect impls ctx sock length).fst
        = [SysEvent.hookCall ctx.system.connect SysOp.connect [sock, length]]) ∧
    (ctx.system.version = 0 →
      (_assuan_socket impls ctx ns style protocol).fst
        = [SysEvent.defaultCall SysOp.socket [ns, style, protocol]] ∧
      (_assuan_connect impls ctx sock length).fst
        = bracketedTrace H SysOp.connect [sock, length]) := by
  constructor
  · intro hv
    simp [_assuan_socket, _assuan_connect, hv]
  · intro hv
    simp [_assuan_socket, _assuan_connect, hv]

/-- Witness for C4 amended: on the concrete version-1 context the hook
slots are invoked, on the concrete version-0 context the defaults
are. -/
theorem C4_socket_connect_dispatch_witness :
    (_assuan_socket implsA ctxA1 1 2 3).fst
      = [SysEvent.hookCall ctxA1.system.socket SysOp.socket [1, 2, 3]] ∧
    (_assuan_socket implsA ctxA0 1 2 3).fst
      = [SysEvent.defaultCall SysOp.socket [1, 2, 3]] :=
  ⟨((C4_socket_connect_dispatch implsA ctxA1 1 2 3 7 16).1 (by decide)).1,
   ((C4_socket_connect_dispatch implsA ctxA0 1 2 3 7 16).2 rfl).1⟩
